import Mathlib

/-!
Shallow embedding of the weather application's core
(`src/weather-app/src/lib/api/weather.ts`,
`src/weather-app/src/lib/services/locationStorage.ts`,
`src/weather-app/src/lib/hooks.ts` and the evolved hook module with
request-id tracking), together with theorems settling the specified
properties of the condition mapping, daily aggregation, location storage,
search, temperature display and the request coordinator.

Modelling conventions: JavaScript numbers are modelled as rationals (`ℚ`)
where fractional values matter and as `Int` for provider condition codes
and Unix timestamps; `Date` computations are parameterised by a fixed
timezone offset in seconds, mirroring the device-local calendar the code
reads through `getDate()` and weekday formatting; fallible operations are
modelled with `Except`, and the browser storage cell as an explicit state
value threaded through the storage functions.
-/

namespace WeatherApp

/-- The app's weather condition enum (`WeatherCondition` in `types.ts`). -/
inductive Wc where
  | rain
  | snow
  | sun
  | wind
  | clouds
deriving DecidableEq, Repr

/-- Embedding of `mapWeatherCondition` (`weather.ts` lines 12–22): the
if-chain over the provider's numeric condition code. -/
def mapWeatherCondition (code : Int) : Wc :=
  if 200 ≤ code ∧ code < 300 then .rain
  else if 300 ≤ code ∧ code < 400 then .rain
  else if 500 ≤ code ∧ code < 600 then .rain
  else if 600 ≤ code ∧ code < 700 then .snow
  else if 700 ≤ code ∧ code < 800 then .clouds
  else if code = 800 then .sun
  else if 801 ≤ code ∧ code < 900 then .clouds
  else .clouds

/-- The condition table as the specification states it (§4.1): inclusive
ranges 200–299/300–399/500–599 → rain, 600–699 → snow, 700–799 → clouds,
exactly 800 → sun, 801–899 → clouds, everything else → clouds. -/
def mapConditionTable (code : Int) : Wc :=
  if 200 ≤ code ∧ code ≤ 299 then .rain
  else if 300 ≤ code ∧ code ≤ 399 then .rain
  else if 500 ≤ code ∧ code ≤ 599 then .rain
  else if 600 ≤ code ∧ code ≤ 699 then .snow
  else if 700 ≤ code ∧ code ≤ 799 then .clouds
  else if code = 800 then .sun
  else if 801 ≤ code ∧ code ≤ 899 then .clouds
  else .clouds

/-! ### JS `Date` model

The source reads device-local calendar data from provider Unix timestamps
via `new Date(dt * 1000).getDate()` and `Intl.DateTimeFormat(..,
{weekday})`. We model local time by a fixed timezone offset `tz` in
seconds and compute the civil calendar from days-since-epoch. -/

/-- Days since the Unix epoch of the local instant `tz + s` (floor). -/
def localEpochDay (tz s : Int) : Int := (s + tz).fdiv 86400

/-- Weekday index of an epoch day (0 = Sunday; day 0, 1970-01-01, was a
Thursday, index 4). -/
def weekdayIdx (d : Int) : Int := (d + 4).emod 7

/-- English weekday name, as produced by
`Intl.DateTimeFormat("en-US", \x7b weekday: "long" \x7d)`. -/
def weekdayName (i : Int) : String :=
  if i = 0 then "Sunday"
  else if i = 1 then "Monday"
  else if i = 2 then "Tuesday"
  else if i = 3 then "Wednesday"
  else if i = 4 then "Thursday"
  else if i = 5 then "Friday"
  else "Saturday"

/-- Embedding of `formatDay` (`weather.ts` lines 25–28): weekday name of a
Unix timestamp in the device-local calendar. -/
def formatDay (tz dt : Int) : String := weekdayName (weekdayIdx (localEpochDay tz dt))

/-- Civil day-of-month of an epoch day (standard civil-from-days
computation, proleptic Gregorian calendar). -/
def civilDayOfMonth (z : Int) : Int :=
  let z' := z + 719468
  let era := z'.fdiv 146097
  let doe := z' - era * 146097
  let yoe := (doe - doe.fdiv 1460 + doe.fdiv 36524 - doe.fdiv 146096).fdiv 365
  let doy := doe - (365 * yoe + yoe.fdiv 4 - yoe.fdiv 100)
  let mp := (5 * doy + 2).fdiv 153
  doy - (153 * mp + 2).fdiv 5 + 1

/-- `Date.prototype.getDate()` of a Unix timestamp: local day-of-month. -/
def dayOfMonth (tz s : Int) : Int := civilDayOfMonth (localEpochDay tz s)

/-! ### Daily aggregation (`processDailyData`, `weather.ts` lines 66–117)

A 3-hour forecast sample carries a Unix timestamp `dt`, a temperature
`main.temp` (modelled as `ℚ`) and a raw condition id `weather[0].id`. -/

/-- One 3-hour forecast sample, as `processDailyData` consumes it. -/
structure ForecastItem where
  dt : Int
  temp : ℚ
  weatherId : Int
deriving DecidableEq, Repr

/-- One output entry of `processDailyData`. -/
structure DayEntry where
  date : String
  temp : ℚ
  icon : Wc
deriving DecidableEq, Repr

/-- One bucket of the `dailyData` object: weekday-name key with the
accumulated `temps` and `icons` arrays. -/
structure Bucket where
  key : String
  temps : List ℚ
  icons : List Int
deriving DecidableEq, Repr

/-- Appending a sample to the `dailyData` object: push onto the existing
bucket for the key, or create a new bucket at the end (JS objects keep
string keys in insertion order). -/
def addToBuckets (bs : List Bucket) (k : String) (t : ℚ) (ic : Int) : List Bucket :=
  match bs with
  | [] => [⟨k, [t], [ic]⟩]
  | b :: rest =>
    if b.key = k then ⟨b.key, b.temps ++ [t], b.icons ++ [ic]⟩ :: rest
    else b :: addToBuckets rest k t ic

/-- The grouping loop of `processDailyData`: samples whose local
day-of-month equals `today` are skipped, the rest are appended under their
weekday name. -/
def buildBuckets (tz today : Int) (items : List ForecastItem) : List Bucket :=
  items.foldl
    (fun bs it =>
      if dayOfMonth tz it.dt = today then bs
      else addToBuckets bs (formatDay tz it.dt) it.temp it.weatherId)
    []

/-- Lookup in the `iconCounts` association table (`iconCounts[icon] || 0`). -/
def lookupCount (counts : List (Int × Nat)) (ic : Int) : Nat :=
  match counts with
  | [] => 0
  | (k, c) :: rest => if k = ic then c else lookupCount rest ic

/-- Set an icon's count in the `iconCounts` table. -/
def setCount (counts : List (Int × Nat)) (ic : Int) (c : Nat) : List (Int × Nat) :=
  match counts with
  | [] => [(ic, c)]
  | (k, c0) :: rest => if k = ic then (ic, c) :: rest else (k, c0) :: setCount rest ic c

/-- The `mostCommonIcon` scan of `processDailyData`: running counts, the
champion replaced only on a strictly larger count (initial champion `0`). -/
def mostCommonIconAux : List Int → List (Int × Nat) → Nat → Int → Int
  | [], _, _, best => best
  | ic :: rest, counts, maxCount, best =>
    let c := lookupCount counts ic + 1
    let counts' := setCount counts ic c
    if c > maxCount then mostCommonIconAux rest counts' c ic
    else mostCommonIconAux rest counts' maxCount best

/-- The raw condition id selected for a day's icon list. -/
def mostCommonIcon (icons : List Int) : Int := mostCommonIconAux icons [] 0 0

/-- `temps.reduce((sum, t) => sum + t, 0) / temps.length`. -/
def meanQ (ts : List ℚ) : ℚ := ts.foldl (· + ·) 0 / (ts.length : ℚ)

/-- Embedding of `processDailyData`: `today` is the device-local
day-of-month of `now` (`new Date().getDate()`); group, average, pick the
most common icon, and keep the first 5 groups. -/
def processDailyData (tz now : Int) (items : List ForecastItem) : List DayEntry :=
  let today := dayOfMonth tz now
  ((buildBuckets tz today items).map
    (fun b => ⟨b.key, meanQ b.temps, mapWeatherCondition (mostCommonIcon b.icons)⟩)).take 5

/-! Declarative reformulations used to settle the aggregation claim. -/

/-- Distinct elements of a list in order of first appearance. -/
def firstKeys {α : Type} [DecidableEq α] : List α → List α
  | [] => []
  | k :: rest => k :: (firstKeys rest).filter (fun x => x ≠ k)

/-- Declarative description of what the code computes (the amended
aggregation): drop samples whose local day-of-month equals that of `now`,
group the rest by local weekday name in order of first appearance, average
each group's temperatures, map the icon chosen by the `mostCommonIcon`
scan, and keep the first 5 groups. -/
def specDailyAmended (tz now : Int) (items : List ForecastItem) : List DayEntry :=
  let today := dayOfMonth tz now
  let kept := items.filter (fun it => dayOfMonth tz it.dt ≠ today)
  ((firstKeys (kept.map (fun it => formatDay tz it.dt))).map
    (fun k =>
      let group := kept.filter (fun it => formatDay tz it.dt = k)
      ⟨k, meanQ (group.map (·.temp)),
        mapWeatherCondition (mostCommonIcon (group.map (·.weatherId)))⟩)).take 5

/-- Insertion into a sorted list of epoch days. -/
def insertSorted (x : Int) : List Int → List Int
  | [] => [x]
  | y :: ys => if x ≤ y then x :: y :: ys else y :: insertSorted x ys

/-- Insertion sort over epoch days (chronological order). -/
def sortInts (l : List Int) : List Int := l.foldr insertSorted []

/-- The mode with ties broken by first-seen order, as the specification
claims it: among the distinct ids in first-appearance order, keep the
first one attaining the maximal total count. -/
def modeFirstSeen (icons : List Int) : Int :=
  ((firstKeys icons).foldl
    (fun (b : Int × Nat) i =>
      let c := icons.count i
      if c > b.2 then (i, c) else b)
    (0, 0)).1

/-- The daily aggregation exactly as the claim states it: group by local
calendar day (full date, keyed here by local epoch day), exclude samples
of the current calendar day, average temperatures, take the mode of the
raw ids with ties broken by first-seen order, and return at most the
first 5 days in chronological order. -/
def claimDaily (tz now : Int) (items : List ForecastItem) : List DayEntry :=
  let today := localEpochDay tz now
  let kept := items.filter (fun it => localEpochDay tz it.dt ≠ today)
  let days := sortInts (firstKeys (kept.map (fun it => localEpochDay tz it.dt)))
  (days.map
    (fun d =>
      let group := kept.filter (fun it => localEpochDay tz it.dt = d)
      ⟨weekdayName (weekdayIdx d), meanQ (group.map (·.temp)),
        mapWeatherCondition (modeFirstSeen (group.map (·.weatherId)))⟩)).take 5

/-! ### Location storage (`locationStorage.ts`)

The browser `localStorage` cell for each key is modelled by `Stored`:
absent (`getItem` returns `null`), corrupt (the stored string makes
`JSON.parse` throw), or a parsed list. `Except Unit` models JS exception
propagation; every `try/catch` of the source appears as a `match` on the
body's result. Writes are parameterised by a `writeOk` flag: when it is
`false`, `setItem` throws (e.g. quota exceeded) without writing. -/

/-- A geocoding result (`LocationData` in `types.ts`). -/
structure LocationData where
  id : String
  name : String
  state : Option String
  country : String
  lat : ℚ
  lon : ℚ
deriving DecidableEq, Repr

/-- A persisted favorite/recent entry (`SavedLocation` in `types.ts`). -/
structure SavedLocation where
  id : String
  displayName : String
  lat : ℚ
  lon : ℚ
  timestamp : String
deriving DecidableEq, Repr

/-- `Array.prototype.join(", ")`. -/
def joinComma : List String → String
  | [] => ""
  | [s] => s
  | s :: rest => s ++ ", " ++ joinComma rest

/-- Embedding of `formatLocationDisplay` (`weather.ts` lines 247–257). -/
def formatLocationDisplay (loc : LocationData) : String :=
  joinComma
    ([loc.name] ++ (match loc.state with | some s => [s] | none => []) ++ [loc.country])

/-- The saved-location object both mutators build (`locationStorage.ts`
lines 32–38 and 101–107); `now` stands for `new Date().toISOString()`. -/
def mkSaved (now : String) (loc : LocationData) : SavedLocation :=
  ⟨loc.id, formatLocationDisplay loc, loc.lat, loc.lon, now⟩

/-- Content of one `localStorage` key. -/
inductive Stored where
  | absent
  | corrupt
  | val (l : List SavedLocation)
deriving DecidableEq, Repr

/-- The two storage keys the service owns. -/
structure Store where
  recents : Stored
  favorites : Stored
deriving DecidableEq, Repr

/-- `localStorage.getItem` + `JSON.parse` + the `!storedLocations` check,
i.e. the body of `getRecentLocations`/`getFavoriteLocations` before their
`catch`: a corrupt cell throws. -/
def readStored : Stored → Except Unit (List SavedLocation)
  | .absent => .ok []
  | .corrupt => .error ()
  | .val l => .ok l

/-- Embedding of `getRecentLocations` (lines 61–73): the body wrapped in
`try/catch`, the catch logging and returning `[]`. -/
def getRecentLocations (st : Store) : Except Unit (List SavedLocation) :=
  match readStored st.recents with
  | .ok l => .ok l
  | .error _ => .ok []

/-- Embedding of `getFavoriteLocations` (lines 129–141). -/
def getFavoriteLocations (st : Store) : Except Unit (List SavedLocation) :=
  match readStored st.favorites with
  | .ok l => .ok l
  | .error _ => .ok []

/-- The list a `getOrElse` on the always-`ok` readers yields. -/
def listOf : Except Unit (List SavedLocation) → List SavedLocation
  | .ok l => l
  | .error _ => []

/-- `localStorage.setItem` on the recents key: throws without writing when
`writeOk` is `false`. -/
def setRecents (writeOk : Bool) (l : List SavedLocation) (st : Store) : Except Unit Store :=
  if writeOk then .ok { st with recents := .val l } else .error ()

/-- `localStorage.setItem` on the favorites key. -/
def setFavorites (writeOk : Bool) (l : List SavedLocation) (st : Store) : Except Unit Store :=
  if writeOk then .ok { st with favorites := .val l } else .error ()

/-- Embedding of `addToRecentLocations` (lines 26–54): read (its own catch
already applied), de-duplicate by id, prepend, truncate to 5, write; the
outer catch leaves the store unchanged on a throw. -/
def addToRecentLocations (writeOk : Bool) (now : String) (loc : LocationData)
    (st : Store) : Store :=
  let body : Except Unit Store := do
    let recentLocations := listOf (getRecentLocations st)
    let savedLocation := mkSaved now loc
    let filteredLocations := recentLocations.filter (fun e => e.id ≠ loc.id)
    let updatedLocations := savedLocation :: filteredLocations
    let limitedLocations := updatedLocations.take 5
    setRecents writeOk limitedLocations st
  match body with
  | .ok st' => st'
  | .error _ => st

/-- Embedding of `removeFromRecentLocations` (lines 80–88). -/
def removeFromRecentLocations (writeOk : Bool) (locationId : String) (st : Store) : Store :=
  let body : Except Unit Store := do
    let recentLocations := listOf (getRecentLocations st)
    setRecents writeOk (recentLocations.filter (fun e => e.id ≠ locationId)) st
  match body with
  | .ok st' => st'
  | .error _ => st

/-- Embedding of `addToFavoriteLocations` (lines 95–122): a no-op when an
entry with the same id already exists, otherwise append at the end. -/
def addToFavoriteLocations (writeOk : Bool) (now : String) (loc : LocationData)
    (st : Store) : Store :=
  let body : Except Unit Store := do
    let favoriteLocations := listOf (getFavoriteLocations st)
    let savedLocation := mkSaved now loc
    if favoriteLocations.any (fun e => e.id = loc.id) then
      pure st
    else
      setFavorites writeOk (favoriteLocations ++ [savedLocation]) st
  match body with
  | .ok st' => st'
  | .error _ => st

/-- Embedding of `removeFromFavoriteLocations` (lines 148–156). -/
def removeFromFavoriteLocations (writeOk : Bool) (locationId : String) (st : Store) : Store :=
  let body : Except Unit Store := do
    let favoriteLocations := listOf (getFavoriteLocations st)
    setFavorites writeOk (favoriteLocations.filter (fun e => e.id ≠ locationId)) st
  match body with
  | .ok st' => st'
  | .error _ => st

/-- Embedding of `isLocationFavorite` (lines 164–167). -/
def isLocationFavorite (locationId : String) (st : Store) : Bool :=
  (listOf (getFavoriteLocations st)).any (fun e => e.id = locationId)

/-- Embedding of `toggleLocationFavorite` (lines 175–185): remove and
return `false` when present, add and return `true` otherwise. -/
def toggleLocationFavorite (writeOk : Bool) (now : String) (loc : LocationData)
    (st : Store) : Bool × Store :=
  if isLocationFavorite loc.id st then
    (false, removeFromFavoriteLocations writeOk loc.id st)
  else
    (true, addToFavoriteLocations writeOk now loc st)

/-! ### Geocoding search (`searchLocationsByName`, `weather.ts` 206–239)

The network is abstracted by the outcome the single `fetch` would have;
the returned flag records whether a network call was issued at all. -/

/-- One raw geocoding result of the provider. -/
structure GeoItem where
  name : String
  state : Option String
  country : String
  lat : ℚ
  lon : ℚ
deriving DecidableEq, Repr

/-- Outcome of the geocoding `fetch`. -/
inductive FetchOutcome where
  | transportError
  | httpError (status : Nat)
  | success (items : List GeoItem)
deriving DecidableEq, Repr

/-- The error kind the caller sees (the rethrown
"Failed to search for locations" error). -/
inductive SearchErr where
  | upstream
deriving DecidableEq, Repr

/-- `!query.trim()`: true iff every character is whitespace. -/
def isBlank (s : String) : Bool := s.data.all (fun c => c.isWhitespace)

/-- `.replace(/\s+/g, "")`. -/
def stripSpaces (s : String) : String := ⟨s.data.filter (fun c => ¬ c.isWhitespace)⟩

/-- Decimal rendering of a JS number inside a template literal, abstracted
by an injective rational rendering (the exact digit string is irrelevant
to the verified properties). -/
def numStr (q : ℚ) : String := toString q.num ++ "d" ++ toString q.den

/-- The mapping of one raw item to `LocationData` (lines 226–234). -/
def toLocationData (it : GeoItem) : LocationData :=
  ⟨stripSpaces (it.name ++ "_" ++ it.state.getD "" ++ "_" ++ it.country ++ "_" ++
      numStr it.lat ++ "_" ++ numStr it.lon),
    it.name, it.state, it.country, it.lat, it.lon⟩

/-- Embedding of `searchLocationsByName`: a blank query short-circuits to
`[]` with no fetch; otherwise the fetch outcome is mapped, every throw
being caught and rethrown as the upstream error. The second component
records whether the network was hit. -/
def searchLocationsByName (env : FetchOutcome) (query : String) :
    Except SearchErr (List LocationData) × Bool :=
  if isBlank query then (.ok [], false)
  else
    match env with
    | .transportError => (.error .upstream, true)
    | .httpError _ => (.error .upstream, true)
    | .success items => (.ok (items.map toLocationData), true)

/-! ### Temperature display (`useTemperatureUnit.displayTemp`,
`hooks.ts` lines 118–122 and 391–395) -/

/-- The unit preference. -/
inductive TemperatureUnit where
  | metric
  | imperial
deriving DecidableEq, Repr

/-- `Math.round`: half-up towards positive infinity. -/
def jsRound (q : ℚ) : Int := ⌊q + 1 / 2⌋

/-- Decimal digit character. -/
def digitChar (n : Nat) : Char :=
  if n = 0 then '0' else if n = 1 then '1' else if n = 2 then '2'
  else if n = 3 then '3' else if n = 4 then '4' else if n = 5 then '5'
  else if n = 6 then '6' else if n = 7 then '7' else if n = 8 then '8' else '9'

/-- Digits of a positive natural, fuel-bounded for kernel reduction. -/
def natDigits : Nat → Nat → List Char
  | 0, _ => []
  | fuel + 1, n => if n = 0 then [] else natDigits fuel (n / 10) ++ [digitChar (n % 10)]

/-- Decimal string of a natural number. -/
def natToStr (n : Nat) : String := if n = 0 then "0" else ⟨natDigits (n + 1) n⟩

/-- Decimal string of an integer, as a JS template literal renders an
integral number. -/
def intToStr (i : Int) : String :=
  if i < 0 then "-" ++ natToStr i.natAbs else natToStr i.natAbs

/-- Embedding of `displayTemp`: the stored Celsius value formatted in the
current unit. -/
def displayTemp (unit : TemperatureUnit) (temp : ℚ) : String :=
  match unit with
  | .imperial => intToStr (jsRound (temp * 9 / 5 + 32)) ++ "°F"
  | .metric => intToStr (jsRound temp) ++ "°C"

/-- The conversion exactly as the specification words it:
`round(celsius * 9/5 + 32)` suffixed `°F` for imperial, `round(celsius)`
suffixed `°C` for metric. -/
def displayTempSpec (unit : TemperatureUnit) (celsius : ℚ) : String :=
  match unit with
  | .imperial => intToStr (jsRound (celsius * (9 / 5 : ℚ) + 32)) ++ "°F"
  | .metric => intToStr (jsRound celsius) ++ "°C"

/-! ### Request coordination (`useWeatherData`, evolved hook module)

The SWR layer is modelled by its cache: the key of an entry is the pair
(coordinates, requestId) — the useSWR key `["weather", lat, lon,
currentRequestId]` — and a completing fetch writes only its own key's
entry. The visible snapshot is the cache entry of the currently selected
key. A snapshot carries the coordinates its fetch was issued for. -/

/-- A coordinate pair. -/
structure Coords where
  lat : ℚ
  lon : ℚ
deriving DecidableEq, Repr

/-- A weather snapshot, identified by the coordinates it was fetched
for. -/
structure Snapshot where
  lat : ℚ
  lon : ℚ
deriving DecidableEq, Repr

/-- SWR-cache key: coordinates plus request id. -/
abbrev SwrKey := Coords × String

/-- Coordinator state: selected coordinates, active request id, and the
SWR cache. -/
structure SwrState where
  coords : Option Coords
  activeRid : String
  cache : List (SwrKey × Snapshot)
deriving DecidableEq, Repr

/-- Initial state (`coordinates = null`, `currentRequestId = "initial"`,
empty cache). -/
def initSwr : SwrState := ⟨none, "initial", []⟩

/-- Coordinator events: a coordinate selection with a freshly generated
request id (search selection, geolocation result or retry), and a fetch
completion delivering a snapshot for the key it was started under. -/
inductive SwrEvent where
  | select (c : Coords) (rid : String)
  | complete (c : Coords) (rid : String) (snap : Snapshot)

/-- Cache update at one key (replace or append). -/
def insertCache (cache : List (SwrKey × Snapshot)) (k : SwrKey) (v : Snapshot) :
    List (SwrKey × Snapshot) :=
  match cache with
  | [] => [(k, v)]
  | (k0, v0) :: rest => if k0 = k then (k, v) :: rest else (k0, v0) :: insertCache rest k v

/-- Cache lookup. -/
def lookupCache (cache : List (SwrKey × Snapshot)) (k : SwrKey) : Option Snapshot :=
  match cache with
  | [] => none
  | (k0, v0) :: rest => if k0 = k then some v0 else lookupCache rest k

/-- One coordinator step. -/
def swrStep (st : SwrState) : SwrEvent → SwrState
  | .select c rid => { st with coords := some c, activeRid := rid }
  | .complete c rid snap => { st with cache := insertCache st.cache (c, rid) snap }

/-- A session: the fold of events over the coordinator state. -/
def swrRun (st : SwrState) (es : List SwrEvent) : SwrState := es.foldl swrStep st

/-- The snapshot the UI renders: the cache entry of the currently active
key. -/
def visibleSnapshot (st : SwrState) : Option Snapshot :=
  match st.coords with
  | none => none
  | some c => lookupCache st.cache (c, st.activeRid)

/-! ### Hook-level session model (geolocation vs. explicit search)

State and transitions of `useWeatherData` in the evolved hook module:
`getUserLocation` up to its `await getCurrentPosition()` (granted/prompt
path), the continuation that runs when the position promise resolves,
`setLocation`, and the 60-second fallback-timer body. -/

/-- `DEFAULT_COORDS` (New York City). -/
def DEFAULT_COORDS : Coords := ⟨40.7128, -74.006⟩

/-- `DEFAULT_LOCATION_NAME`. -/
def DEFAULT_LOCATION_NAME : String := "New York City, US"

/-- The hook state fields relevant to location selection. -/
structure HookState where
  coordinates : Option Coords
  currentRequestId : String
  customLocationName : String
  isGettingLocation : Bool
  geolocated : Bool
  userHasSearched : Bool
deriving DecidableEq, Repr

/-- Initial hook state. -/
def initHook : HookState := ⟨none, "initial", "", false, false, false⟩

/-- Session events. `geoStart` is `getUserLocation` up to the `await`
(permission granted or prompt): it sets the getting-location flag and a
fresh `geo-` request id. `geoSuccess` is the continuation after
`getCurrentPosition()` resolves, including the `finally` block.
`searchSelect` is `setLocation`. `fallbackFire` is the fallback-timer
body with its guard. -/
inductive HookEvent where
  | geoStart (rid : String)
  | geoSuccess (c : Coords)
  | searchSelect (c : Coords) (locationName : Option String) (rid : String)
  | fallbackFire (rid : String)

/-- One hook transition, as the source performs it. -/
def hookStep (st : HookState) : HookEvent → HookState
  | .geoStart rid =>
    if st.isGettingLocation then st
    else { st with isGettingLocation := true, currentRequestId := rid }
  | .geoSuccess c =>
    { st with coordinates := some c, customLocationName := "", geolocated := true,
              isGettingLocation := false }
  | .searchSelect c locationName rid =>
    { st with isGettingLocation := false, currentRequestId := rid,
              coordinates := some c, customLocationName := locationName.getD "",
              userHasSearched := true }
  | .fallbackFire rid =>
    if st.coordinates = none ∧ st.geolocated = false ∧ st.userHasSearched = false then
      { st with currentRequestId := rid, coordinates := some DEFAULT_COORDS,
                customLocationName := DEFAULT_LOCATION_NAME }
    else st

/-- A hook session: fold of events. -/
def hookRun (st : HookState) (es : List HookEvent) : HookState := es.foldl hookStep st

/-! ### Concrete inputs used by counterexamples and witnesses -/

/-- Reference instant for the daily-aggregation counterexample:
2021-01-15 12:00 UTC (local day-of-month 15). -/
def cexNow : Int := 1610712000

/-- Sample list for the daily-aggregation counterexample: four samples on
Saturday 2021-01-16 with condition ids 800, 500, 500, 800 (a 2–2 tie),
one sample on Saturday 2021-01-23 (same weekday, different calendar day),
and one on Monday 2021-02-15 (different calendar day but the same
day-of-month as the reference instant). -/
def cexItems : List ForecastItem :=
  [⟨1610755200, 10, 800⟩, ⟨1610766000, 10, 500⟩, ⟨1610776800, 10, 500⟩,
    ⟨1610787600, 10, 800⟩, ⟨1611360000, 50, 300⟩, ⟨1613347200, 20, 600⟩]

/-- A concrete location candidate used by counterexamples and witnesses. -/
def cexLoc : LocationData := ⟨"Paris__FR_1_2", "Paris", none, "FR", 1, 2⟩

/-- The bucket that the grouping loop produces for key `k`, described
declaratively: the temperatures and ids of the kept samples whose weekday
name is `k`, in order. -/
def mkBucket (tz : Int) (kept : List ForecastItem) (k : String) : Bucket :=
  ⟨k, (kept.filter (fun it => formatDay tz it.dt = k)).map (fun it => it.temp),
    (kept.filter (fun it => formatDay tz it.dt = k)).map (fun it => it.weatherId)⟩

/-- The bucket list for a key list. -/
def mkBuckets (tz : Int) (kept : List ForecastItem) (ks : List String) : List Bucket :=
  ks.map (mkBucket tz kept)

end WeatherApp

namespace WeatherApp

/-! ## Theorems -/

/-- C4. For every provider numeric condition code, the condition-mapping
function agrees with the fixed table of the specification: 200–299,
300–399 and 500–599 map to rain, 600–699 to snow, 700–799 to clouds,
exactly 800 to sun, 801–899 to clouds, and every other code (including
400–499 and codes below 200 or at 900 and above) to clouds; the function
is pure and deterministic. -/
theorem mapWeatherCondition_agrees_table :
    ∀ code : Int, mapWeatherCondition code = mapConditionTable code := by
  intro code
  unfold mapWeatherCondition mapConditionTable
  have e1 : (200 ≤ code ∧ code < 300) ↔ (200 ≤ code ∧ code ≤ 299) := by omega
  have e2 : (300 ≤ code ∧ code < 400) ↔ (300 ≤ code ∧ code ≤ 399) := by omega
  have e3 : (500 ≤ code ∧ code < 600) ↔ (500 ≤ code ∧ code ≤ 599) := by omega
  have e4 : (600 ≤ code ∧ code < 700) ↔ (600 ≤ code ∧ code ≤ 699) := by omega
  have e5 : (700 ≤ code ∧ code < 800) ↔ (700 ≤ code ∧ code ≤ 799) := by omega
  have e6 : (801 ≤ code ∧ code < 900) ↔ (801 ≤ code ∧ code ≤ 899) := by omega
  simp only [e1, e2, e3, e4, e5, e6]

/-- C7. Reading recents or favorites never raises to the caller: for every
storage content the readers return normally, and corrupt or absent
storage yields the empty list. -/
theorem getLocations_total_and_safe :
    (∀ st : Store, ∃ l, getRecentLocations st = .ok l) ∧
    (∀ st : Store, ∃ l, getFavoriteLocations st = .ok l) ∧
    (∀ f, getRecentLocations ⟨.corrupt, f⟩ = .ok []) ∧
    (∀ f, getRecentLocations ⟨.absent, f⟩ = .ok []) ∧
    (∀ r, getFavoriteLocations ⟨r, .corrupt⟩ = .ok []) ∧
    (∀ r, getFavoriteLocations ⟨r, .absent⟩ = .ok []) := by
  refine ⟨fun st => ?_, fun st => ?_, fun f => rfl, fun f => rfl, fun r => rfl, fun r => rfl⟩
  · cases h : st.recents <;>
      simp [getRecentLocations, readStored, h]
  · cases h : st.favorites <;>
      simp [getFavoriteLocations, readStored, h]

/-- C9. A blank query returns the empty list without touching the
network; a non-blank query fails with the upstream error on a transport
failure or a non-success response. -/
theorem searchLocations_blank_and_errors (q : String) :
    (isBlank q = true → ∀ env, searchLocationsByName env q = (.ok [], false)) ∧
    (isBlank q = false →
      searchLocationsByName .transportError q = (.error .upstream, true) ∧
      ∀ s, searchLocationsByName (.httpError s) q = (.error .upstream, true)) := by
  constructor
  · intro h env
    cases env <;> simp [searchLocationsByName, h]
  · intro h
    exact ⟨by simp [searchLocationsByName, h], fun s => by simp [searchLocationsByName, h]⟩

/-- Witness for C9 at the empty query, a whitespace query and a concrete
non-blank query. -/
theorem searchLocations_blank_and_errors_witness :
    searchLocationsByName .transportError "" = (.ok [], false) ∧
    searchLocationsByName (.httpError 500) " " = (.ok [], false) ∧
    searchLocationsByName .transportError "Paris" = (.error .upstream, true) ∧
    searchLocationsByName (.httpError 500) "Paris" = (.error .upstream, true) :=
  ⟨(searchLocations_blank_and_errors "").1 (by decide) _,
    (searchLocations_blank_and_errors " ").1 (by decide) _,
    ((searchLocations_blank_and_errors "Paris").2 (by decide)).1,
    ((searchLocations_blank_and_errors "Paris").2 (by decide)).2 500⟩

/-- C8. The display formula: imperial output is `round(t * 9/5 + 32)`
suffixed `°F` and metric output is `round(t)` suffixed `°C` (the function
reads nothing but the temperature and the unit); in particular 0 °C
renders as `0°C` in metric and `32°F` in imperial, and 100 °C renders as
`212°F` in imperial. -/
theorem displayTemp_formula :
    (∀ (t : ℚ) (u : TemperatureUnit), displayTemp u t = displayTempSpec u t) ∧
    displayTemp .metric 0 = "0°C" ∧
    displayTemp .imperial 0 = "32°F" ∧
    displayTemp .imperial 100 = "212°F" := by
  refine ⟨fun t u => ?_, ?_, ?_, ?_⟩
  · cases u <;> simp [displayTemp, displayTempSpec, mul_div_assoc]
  · have h : jsRound (0 : ℚ) = 0 := by norm_num [jsRound]
    show intToStr (jsRound (0 : ℚ)) ++ "°C" = "0°C"
    rw [h]
    decide
  · have h : jsRound ((0 : ℚ) * 9 / 5 + 32) = 32 := by norm_num [jsRound]
    show intToStr (jsRound ((0 : ℚ) * 9 / 5 + 32)) ++ "°F" = "32°F"
    rw [h]
    decide
  · have h : jsRound ((100 : ℚ) * 9 / 5 + 32) = 212 := by norm_num [jsRound]
    show intToStr (jsRound ((100 : ℚ) * 9 / 5 + 32)) ++ "°F" = "212°F"
    rw [h]
    decide

/-- C2 evaluation at the failing session: a geolocation attempt is
started, the user performs an explicit search selection for (10, 20)
while the position promise is still pending, and the promise then
resolves with (48, 2). The resolution handler runs unguarded and
overwrites the searched coordinates (and clears the searched location
name), so the session ends selecting the geolocated coordinates, not the
searched ones — contradicting both the specification and the source's own
"Cancel any ongoing geolocation attempt" comment. -/
theorem hook_geoSuccess_overwrites_search :
    hookRun initHook
      [.geoStart "geo-1",
        .searchSelect ⟨10, 20⟩ (some "Searched City") "search-1",
        .geoSuccess ⟨48, 2⟩] =
      ⟨some ⟨48, 2⟩, "search-1", "", false, true, true⟩ ∧
    (⟨48, 2⟩ : Coords) ≠ ⟨10, 20⟩ := by
  exact ⟨rfl, by decide⟩

/-- C10 counterexample: with a corrupt recents cell the storage read
throws (`JSON.parse` fails inside `getRecentLocations`), yet
`addToRecentLocations` does not leave the persisted collection as it was
— it recovers the list as empty and overwrites the cell with the new
one-element list. -/
theorem storage_mutator_overwrites_corrupt :
    readStored (Store.recents ⟨.corrupt, .absent⟩) = .error () ∧
    (addToRecentLocations true "2025-01-01" cexLoc ⟨.corrupt, .absent⟩).recents =
      .val [mkSaved "2025-01-01" cexLoc] ∧
    Stored.val [mkSaved "2025-01-01" cexLoc] ≠ .corrupt :=
  ⟨rfl, rfl, fun h => nomatch h⟩

/-- C10 amended: every mutating storage operation returns normally, and a
failing `setItem` write leaves both persisted collections exactly as they
were; a failing read/parse is instead recovered as the empty collection
and the operation proceeds, overwriting the corrupt cell with the freshly
computed list. -/
theorem storage_mutators_atomic_amended :
    ∀ (now i : String) (loc : LocationData) (st : Store),
      addToRecentLocations false now loc st = st ∧
      addToFavoriteLocations false now loc st = st ∧
      removeFromRecentLocations false i st = st ∧
      removeFromFavoriteLocations false i st = st ∧
      (∀ f, addToRecentLocations true now loc ⟨.corrupt, f⟩ =
        ⟨.val [mkSaved now loc], f⟩) ∧
      (∀ r, addToFavoriteLocations true now loc ⟨r, .corrupt⟩ =
        ⟨r, .val [mkSaved now loc]⟩) ∧
      (∀ f, removeFromRecentLocations true i ⟨.corrupt, f⟩ = ⟨.val [], f⟩) ∧
      (∀ r, removeFromFavoriteLocations true i ⟨r, .corrupt⟩ = ⟨r, .val []⟩) := by
  intro now i loc st
  refine ⟨rfl, ?_, rfl, rfl, fun f => rfl, fun r => rfl, fun f => rfl, fun r => rfl⟩
  by_cases h : (listOf (getFavoriteLocations st)).any (fun e => e.id = loc.id)
  · simp [addToFavoriteLocations, h, pure, Except.pure]
  · simp [addToFavoriteLocations, h, setFavorites]

/-- Updating one cache key leaves every other key's entry unchanged. -/
theorem lookupCache_insertCache_ne (cache : List (SwrKey × Snapshot)) (k k' : SwrKey)
    (v : Snapshot) (h : k' ≠ k) :
    lookupCache (insertCache cache k v) k' = lookupCache cache k' := by
  induction cache with
  | nil =>
    simp only [insertCache, lookupCache]
    rw [if_neg (fun hk => h hk.symm)]
  | cons hd tl ih =>
    obtain ⟨k0, v0⟩ := hd
    simp only [insertCache]
    by_cases hk : k0 = k
    · subst hk
      simp only [if_pos rfl, lookupCache]
      rw [if_neg (fun hk => h hk.symm), if_neg (fun hk => h hk.symm)]
    · simp only [if_neg hk, lookupCache]
      by_cases hk' : k0 = k'
      · simp [hk']
      · rw [if_neg hk', if_neg hk', ih]

/-- C1. Stale-response rejection. First: in the race where coordinates A
then B are selected under fresh request ids and A's fetch completes after
B's, the visible snapshot is B's fetch result, never A's. Second, the
general invariant: a completing fetch whose request id differs from the
currently active request id never changes the visible snapshot. -/
theorem swr_stale_completion (cA cB : Coords) (rA rB : String) (sA sB : Snapshot)
    (hr : rA ≠ rB) :
    visibleSnapshot (swrRun initSwr
      [.select cA rA, .select cB rB, .complete cB rB sB, .complete cA rA sA]) = some sB ∧
    (∀ (st : SwrState) (c : Coords) (rid : String) (snap : Snapshot),
      rid ≠ st.activeRid →
      visibleSnapshot (swrStep st (.complete c rid snap)) = visibleSnapshot st) := by
  constructor
  · have hne : ((cB, rB) : SwrKey) ≠ (cA, rA) := by
      intro hk
      exact hr (congrArg Prod.snd hk).symm
    simp only [swrRun, List.foldl, swrStep, initSwr, visibleSnapshot, insertCache,
      lookupCache]
    rw [if_neg hne]
    simp [lookupCache]
  · intro st c rid snap h
    simp only [swrStep, visibleSnapshot]
    cases hc : st.coords with
    | none => rfl
    | some c' =>
      exact lookupCache_insertCache_ne st.cache (c, rid) (c', st.activeRid) snap
        (fun hk => h (congrArg Prod.snd hk).symm)

/-- Witness for C1: a concrete race with overlapping selections and
out-of-order completions ends showing the second selection's snapshot. -/
theorem swr_stale_completion_witness :
    visibleSnapshot (swrRun initSwr
      [.select ⟨1, 2⟩ "geo-1", .select ⟨3, 4⟩ "search-2",
        .complete ⟨3, 4⟩ "search-2" ⟨3, 4⟩, .complete ⟨1, 2⟩ "geo-1" ⟨1, 2⟩]) =
      some ⟨3, 4⟩ :=
  (swr_stale_completion ⟨1, 2⟩ ⟨3, 4⟩ "geo-1" "search-2" ⟨1, 2⟩ ⟨3, 4⟩ (by decide)).1

/-- Unfolding of one successful `addToRecentLocations` call on parseable
storage. -/
theorem addToRecentLocations_val (now : String) (loc : LocationData)
    (l : List SavedLocation) (f : Stored) :
    addToRecentLocations true now loc ⟨.val l, f⟩ =
      ⟨.val ((mkSaved now loc :: l.filter (fun e => e.id ≠ loc.id)).take 5), f⟩ := rfl

/-- C3. The `recordRecent` postcondition: on parseable storage one call
removes any entry with the candidate's id, prepends the derived
`SavedLocation` and truncates to at most 5; recording the same candidate
twice leaves exactly one entry with its id, at the front; and six records
of pairwise-distinct candidates onto empty storage yield exactly the five
most recently added, most recent first. -/
theorem recordRecent_postcondition
    (now1 now2 n1 n2 n3 n4 n5 n6 : String)
    (loc l1 l2 l3 l4 l5 l6 : LocationData)
    (l : List SavedLocation) (f : Stored)
    (hd : List.Pairwise (fun a b => a.id ≠ b.id) [l1, l2, l3, l4, l5, l6]) :
    addToRecentLocations true now1 loc ⟨.val l, f⟩ =
      ⟨.val ((mkSaved now1 loc :: l.filter (fun e => e.id ≠ loc.id)).take 5), f⟩ ∧
    (addToRecentLocations true now2 loc
        (addToRecentLocations true now1 loc ⟨.val l, f⟩)).recents =
      .val (mkSaved now2 loc :: (l.filter (fun e => e.id ≠ loc.id)).take 4) ∧
    (addToRecentLocations true n6 l6 (addToRecentLocations true n5 l5
      (addToRecentLocations true n4 l4 (addToRecentLocations true n3 l3
        (addToRecentLocations true n2 l2 (addToRecentLocations true n1 l1
          ⟨.val [], f⟩)))))).recents =
      .val [mkSaved n6 l6, mkSaved n5 l5, mkSaved n4 l4, mkSaved n3 l3, mkSaved n2 l2] := by
  simp only [List.pairwise_cons, List.mem_cons, List.not_mem_nil] at hd
  obtain ⟨h1, h2, h3, h4, h5, -⟩ := hd
  refine ⟨rfl, ?_, ?_⟩
  · rw [addToRecentLocations_val, List.take_succ_cons, addToRecentLocations_val]
    dsimp only
    rw [List.filter_cons_of_neg (by simp [mkSaved])]
    have hfself : ∀ e ∈ (l.filter (fun x => decide (x.id ≠ loc.id))).take 4,
        (fun x : SavedLocation => decide (x.id ≠ loc.id)) e = true := by
      intro e he
      exact @List.of_mem_filter _ (fun x => decide (x.id ≠ loc.id)) e l
        (List.take_subset 4 (l.filter (fun x => decide (x.id ≠ loc.id))) he)
    rw [List.filter_eq_self.mpr hfself, List.take_succ_cons, List.take_take]
    simp
  · rw [addToRecentLocations_val, addToRecentLocations_val, addToRecentLocations_val,
      addToRecentLocations_val, addToRecentLocations_val, addToRecentLocations_val]
    have e2 := h1 l2 (by simp)
    have e3 := h1 l3 (by simp)
    have e4 := h1 l4 (by simp)
    have e5 := h1 l5 (by simp)
    have e6 := h1 l6 (by simp)
    have f3 := h2 l3 (by simp)
    have f4 := h2 l4 (by simp)
    have f5 := h2 l5 (by simp)
    have f6 := h2 l6 (by simp)
    have g4 := h3 l4 (by simp)
    have g5 := h3 l5 (by simp)
    have g6 := h3 l6 (by simp)
    have i5 := h4 l5 (by simp)
    have i6 := h4 l6 (by simp)
    have j6 := h5 l6 (by simp)
    simp [mkSaved, List.filter_cons, e2, e3, e4, e5, e6, f3, f4, f5, f6, g4, g5, g6,
      i5, i6, j6]

/-- C6. `toggleFavorite` is its own inverse from a state where the
candidate is absent: the first call adds it at the end and returns
`true`, the second removes it and returns `false`, restoring the stored
favorites exactly; and on any state where the candidate is present, a
single call removes every entry with its id and returns `false`. -/
theorem toggleFavorite_inverse
    (now1 now2 : String) (loc : LocationData) (favs favs2 : List SavedLocation)
    (r : Stored) (habs : ∀ e ∈ favs, e.id ≠ loc.id) :
    toggleLocationFavorite true now1 loc ⟨r, .val favs⟩ =
      (true, ⟨r, .val (favs ++ [mkSaved now1 loc])⟩) ∧
    toggleLocationFavorite true now2 loc ⟨r, .val (favs ++ [mkSaved now1 loc])⟩ =
      (false, ⟨r, .val favs⟩) ∧
    (favs2.any (fun e => e.id = loc.id) = true →
      toggleLocationFavorite true now2 loc ⟨r, .val favs2⟩ =
        (false, ⟨r, .val (favs2.filter (fun e => e.id ≠ loc.id))⟩)) := by
  have hany : favs.any (fun e => e.id = loc.id) = false := by
    simp only [List.any_eq_false, decide_eq_true_eq]
    exact habs
  have hfilter : favs.filter (fun e => e.id ≠ loc.id) = favs :=
    List.filter_eq_self.mpr (fun e he => by simpa using habs e he)
  refine ⟨?_, ?_, ?_⟩
  · simp [toggleLocationFavorite, isLocationFavorite, getFavoriteLocations, readStored,
      listOf, addToFavoriteLocations, setFavorites, hany]
  · have hany2 : (favs ++ [mkSaved now1 loc]).any (fun e => e.id = loc.id) = true := by
      simp [mkSaved]
    simp [toggleLocationFavorite, isLocationFavorite, getFavoriteLocations, readStored,
      listOf, removeFromFavoriteLocations, setFavorites, hany2, List.filter_append,
      hfilter, mkSaved]
    exact habs
  · intro hmem
    simp [toggleLocationFavorite, isLocationFavorite, getFavoriteLocations, readStored,
      listOf, removeFromFavoriteLocations, setFavorites, hmem]


/-- Membership in the first-appearance key list. -/
theorem firstKeys_mem {α : Type} [DecidableEq α] (a : α) (l : List α) :
    a ∈ firstKeys l ↔ a ∈ l := by
  induction l with
  | nil => simp [firstKeys]
  | cons x xs ih =>
    simp only [firstKeys, List.mem_cons, List.mem_filter, ih, decide_eq_true_eq]
    by_cases h : a = x <;> simp [h]

/-- The first-appearance key list has no duplicates. -/
theorem firstKeys_nodup {α : Type} [DecidableEq α] (l : List α) : (firstKeys l).Nodup := by
  induction l with
  | nil => simp [firstKeys]
  | cons x xs ih =>
    simp only [firstKeys, List.nodup_cons]
    refine ⟨fun hmem => ?_, ih.filter _⟩
    have := (List.mem_filter.mp hmem).2
    simp at this

/-- Appending one element extends the first-appearance key list exactly
when the element is new. -/
theorem firstKeys_append {α : Type} [DecidableEq α] (l : List α) (k : α) :
    firstKeys (l ++ [k]) = if k ∈ l then firstKeys l else firstKeys l ++ [k] := by
  induction l with
  | nil => simp [firstKeys]
  | cons x xs ih =>
    have hfk : firstKeys (x :: (xs ++ [k])) =
        x :: (firstKeys (xs ++ [k])).filter (fun y => y ≠ x) := rfl
    rw [List.cons_append, hfk, ih]
    by_cases hk : k ∈ xs
    · rw [if_pos hk, if_pos (List.mem_cons_of_mem x hk)]
      rfl
    · by_cases hx : k = x
      · subst hx
        rw [if_neg hk, if_pos (List.mem_cons_self k xs), List.filter_append]
        have h1 : [k].filter (fun y => y ≠ k) = [] := by simp
        rw [h1, List.append_nil]
        rfl
      · have h2 : k ∉ x :: xs := by
          simp only [List.mem_cons, not_or]
          exact ⟨hx, hk⟩
        rw [if_neg hk, if_neg h2, List.filter_append]
        have h3 : [k].filter (fun y => y ≠ x) = [k] := by simp [hx]
        rw [h3]
        rfl

/-- A sample with a different key leaves a bucket unchanged. -/
theorem mkBucket_append_ne (tz : Int) (kept : List ForecastItem) (it : ForecastItem)
    (k : String) (h : formatDay tz it.dt ≠ k) :
    mkBucket tz (kept ++ [it]) k = mkBucket tz kept k := by
  simp [mkBucket, List.filter_append, List.filter_cons, h]

/-- A sample whose key is outside the key list leaves all buckets
unchanged. -/
theorem mkBuckets_append_ne (tz : Int) (kept : List ForecastItem) (it : ForecastItem)
    (ks : List String) (h : formatDay tz it.dt ∉ ks) :
    mkBuckets tz (kept ++ [it]) ks = mkBuckets tz kept ks := by
  unfold mkBuckets
  apply List.map_congr_left
  intro k hk
  exact mkBucket_append_ne tz kept it k (fun he => h (he ▸ hk))

/-- A sample with a matching key is appended to its bucket's arrays. -/
theorem mkBucket_append_eq (tz : Int) (kept : List ForecastItem) (it : ForecastItem)
    (k : String) (h : formatDay tz it.dt = k) :
    mkBucket tz (kept ++ [it]) k =
      ⟨k, (mkBucket tz kept k).temps ++ [it.temp],
        (mkBucket tz kept k).icons ++ [it.weatherId]⟩ := by
  simp [mkBucket, List.filter_append, List.filter_cons, h]

/-- One insertion into the bucket object, described against the
declarative buckets: an existing key grows its bucket, a new key appends
a fresh bucket at the end. -/
theorem addToBuckets_mkBuckets (tz : Int) (it : ForecastItem) :
    ∀ (ks : List String) (kept : List ForecastItem), ks.Nodup →
      (formatDay tz it.dt ∉ ks →
        kept.filter (fun x => formatDay tz x.dt = formatDay tz it.dt) = []) →
      addToBuckets (mkBuckets tz kept ks) (formatDay tz it.dt) it.temp it.weatherId =
        if formatDay tz it.dt ∈ ks
        then mkBuckets tz (kept ++ [it]) ks
        else mkBuckets tz (kept ++ [it]) (ks ++ [formatDay tz it.dt]) := by
  intro ks
  induction ks with
  | nil =>
    intro kept _ hk
    simp only [mkBuckets, List.map_nil, addToBuckets, List.not_mem_nil, if_false,
      List.nil_append, List.map_cons]
    simp [mkBucket, List.filter_append, List.filter_cons, hk (by simp)]
  | cons k0 ks' ih =>
    intro kept hnd hk
    simp only [mkBuckets, List.map_cons, addToBuckets]
    by_cases h0 : k0 = formatDay tz it.dt
    · rw [← h0]
      have hcond : (mkBucket tz kept k0).key = k0 := rfl
      rw [if_pos hcond, if_pos (List.mem_cons_self k0 ks')]
      rw [mkBucket_append_eq tz kept it k0 h0.symm]
      have hnotin : k0 ∉ ks' := (List.nodup_cons.mp hnd).1
      have hnotin2 : formatDay tz it.dt ∉ ks' := h0 ▸ hnotin
      have htail : ks'.map (mkBucket tz (kept ++ [it])) = ks'.map (mkBucket tz kept) := by
        apply List.map_congr_left
        intro k hkk
        exact mkBucket_append_ne tz kept it k (fun he => hnotin2 (he ▸ hkk))
      rw [htail]
      rfl
    · have hcond2 : ¬ (mkBucket tz kept k0).key = formatDay tz it.dt := h0
      rw [if_neg hcond2]
      have hnd' : ks'.Nodup := (List.nodup_cons.mp hnd).2
      have hne : formatDay tz it.dt ≠ k0 := fun he => h0 he.symm
      have hk' : formatDay tz it.dt ∉ ks' →
          kept.filter (fun x => formatDay tz x.dt = formatDay tz it.dt) = [] := by
        intro hn
        refine hk ?_
        simp only [List.mem_cons, not_or]
        exact ⟨hne, hn⟩
      have hstep := ih kept hnd' hk'
      rw [show ks'.map (mkBucket tz kept) = mkBuckets tz kept ks' from rfl, hstep]
      by_cases hmem : formatDay tz it.dt ∈ ks'
      · rw [if_pos hmem, if_pos (List.mem_cons_of_mem k0 hmem)]
        rw [mkBucket_append_ne tz kept it k0 hne]
        rfl
      · have hm2 : formatDay tz it.dt ∉ k0 :: ks' := by
          simp only [List.mem_cons, not_or]
          exact ⟨hne, hmem⟩
        rw [if_neg hmem, if_neg hm2, List.cons_append, List.map_cons]
        rw [mkBucket_append_ne tz kept it k0 hne]
        rfl

/-- The grouping fold over any list equals the declarative buckets over
the first-appearance keys. -/
theorem buildBuckets_foldl (tz : Int) (l : List ForecastItem) :
    l.foldl (fun bs it => addToBuckets bs (formatDay tz it.dt) it.temp it.weatherId) [] =
      mkBuckets tz l (firstKeys (l.map (fun it => formatDay tz it.dt))) := by
  induction l using List.reverseRecOn with
  | nil => rfl
  | append_singleton xs it ih =>
    rw [List.foldl_append, List.foldl_cons, List.foldl_nil, ih]
    have hk : formatDay tz it.dt ∉ firstKeys (xs.map (fun x => formatDay tz x.dt)) →
        xs.filter (fun x => formatDay tz x.dt = formatDay tz it.dt) = [] := by
      intro hn
      rw [List.filter_eq_nil_iff]
      intro a ha
      simp only [decide_eq_true_eq]
      intro he
      exact hn ((firstKeys_mem _ _).mpr (List.mem_map.mpr ⟨a, ha, he⟩))
    rw [addToBuckets_mkBuckets tz it _ xs
      (firstKeys_nodup (xs.map (fun x => formatDay tz x.dt))) hk]
    rw [List.map_append, List.map_cons, List.map_nil, firstKeys_append]
    by_cases hmem : formatDay tz it.dt ∈ xs.map (fun x => formatDay tz x.dt)
    · rw [if_pos ((firstKeys_mem _ _).mpr hmem), if_pos hmem]
    · rw [if_neg (fun hf => hmem ((firstKeys_mem _ _).mp hf)), if_neg hmem]

/-- Skipping current-day samples inside the fold equals folding over the
filtered list. -/
theorem buildBuckets_filter (tz today : Int) (items : List ForecastItem) :
    buildBuckets tz today items =
      (items.filter (fun it => dayOfMonth tz it.dt ≠ today)).foldl
        (fun bs it => addToBuckets bs (formatDay tz it.dt) it.temp it.weatherId) [] := by
  suffices h : ∀ (a : List Bucket) (l : List ForecastItem),
      l.foldl (fun bs it => if dayOfMonth tz it.dt = today then bs
        else addToBuckets bs (formatDay tz it.dt) it.temp it.weatherId) a =
      (l.filter (fun it => dayOfMonth tz it.dt ≠ today)).foldl
        (fun bs it => addToBuckets bs (formatDay tz it.dt) it.temp it.weatherId) a by
    exact h [] items
  intro a l
  induction l generalizing a with
  | nil => rfl
  | cons x xs ih =>
    by_cases hx : dayOfMonth tz x.dt = today
    · simp only [List.foldl_cons, if_pos hx, List.filter_cons]
      rw [if_neg (by simp [hx])]
      exact ih a
    · simp only [List.foldl_cons, if_neg hx, List.filter_cons]
      rw [if_pos (by simp [hx])]
      simp only [List.foldl_cons]
      exact ih _

/-- C5 amended. For every sample list, the daily forecast equals the
declarative description of what the code computes: drop samples whose
local day-of-month equals the current local day-of-month, group the rest
by local weekday name in order of first appearance (so samples a whole
number of weeks apart are merged), average each group's temperatures,
take the mapped code of the id selected by the running-count scan (most
frequent id, ties broken in favour of the id that completes its maximal
count earliest), and keep at most the first 5 groups. -/
theorem processDaily_amended :
    ∀ (tz now : Int) (items : List ForecastItem),
      processDailyData tz now items = specDailyAmended tz now items := by
  intro tz now items
  unfold processDailyData specDailyAmended
  dsimp only
  rw [buildBuckets_filter, buildBuckets_foldl, mkBuckets, List.map_map]
  rfl

/-- C5 counterexample: at the concrete sample list `cexItems` around
`cexNow` the code's daily output is one merged "Saturday" entry whose
condition is rain (the running-count scan resolves the 800/500 tie to
500), while the aggregation described by the claim — grouping by full
calendar day, excluding only the current calendar day, ties broken by
first-seen order — yields three entries starting with a sun day. -/
theorem processDaily_counterexample :
    processDailyData 0 cexNow cexItems ≠ claimDaily 0 cexNow cexItems := by
  intro h
  have h2 := congrArg (List.map DayEntry.icon) h
  have ha : (processDailyData 0 cexNow cexItems).map DayEntry.icon = [Wc.rain] := by
    decide
  have hb : (claimDaily 0 cexNow cexItems).map DayEntry.icon =
      [Wc.sun, Wc.rain, Wc.snow] := by
    decide
  rw [ha, hb] at h2
  exact absurd h2 (by decide)


/-- Witness for C3: six distinct concrete candidates recorded onto empty
storage leave exactly the five most recent, most recent first. -/
theorem recordRecent_postcondition_witness :
    (addToRecentLocations true "t6" ⟨"f", "F", none, "US", 1, 1⟩
      (addToRecentLocations true "t5" ⟨"e", "E", none, "US", 1, 1⟩
        (addToRecentLocations true "t4" ⟨"d", "D", none, "US", 1, 1⟩
          (addToRecentLocations true "t3" ⟨"c", "C", none, "US", 1, 1⟩
            (addToRecentLocations true "t2" ⟨"b", "B", none, "US", 1, 1⟩
              (addToRecentLocations true "t1" ⟨"a", "A", none, "US", 1, 1⟩
                ⟨.val [], .absent⟩)))))).recents =
      .val [mkSaved "t6" ⟨"f", "F", none, "US", 1, 1⟩,
        mkSaved "t5" ⟨"e", "E", none, "US", 1, 1⟩,
        mkSaved "t4" ⟨"d", "D", none, "US", 1, 1⟩,
        mkSaved "t3" ⟨"c", "C", none, "US", 1, 1⟩,
        mkSaved "t2" ⟨"b", "B", none, "US", 1, 1⟩] :=
  (recordRecent_postcondition "t0" "t0b" "t1" "t2" "t3" "t4" "t5" "t6" cexLoc
    ⟨"a", "A", none, "US", 1, 1⟩ ⟨"b", "B", none, "US", 1, 1⟩
    ⟨"c", "C", none, "US", 1, 1⟩ ⟨"d", "D", none, "US", 1, 1⟩
    ⟨"e", "E", none, "US", 1, 1⟩ ⟨"f", "F", none, "US", 1, 1⟩
    [] .absent (by decide)).2.2

/-- Witness for C6: toggling a concrete absent candidate twice returns
`true` then `false` and restores the empty favorites list. -/
theorem toggleFavorite_inverse_witness :
    toggleLocationFavorite true "t1" cexLoc ⟨.absent, .val []⟩ =
      (true, ⟨.absent, .val ([] ++ [mkSaved "t1" cexLoc])⟩) ∧
    toggleLocationFavorite true "t2" cexLoc ⟨.absent, .val ([] ++ [mkSaved "t1" cexLoc])⟩ =
      (false, ⟨.absent, .val []⟩) :=
  ⟨(toggleFavorite_inverse "t1" "t2" cexLoc [] [] .absent (by simp)).1,
    (toggleFavorite_inverse "t1" "t2" cexLoc [] [] .absent (by simp)).2.1⟩

end WeatherApp
